import Mathlib

/-!
Shallow embedding of the Ampere_Analyzer derating engine
(`src/src-tauri/src/simulation.rs` and `src/src-tauri/src/lib.rs`).

Rust `f64` arithmetic is modelled by exact rational arithmetic (`ℚ`);
decimal literals such as `1.2`, `0.5`, `1e-9` become the corresponding
rationals.  Division is `ℚ` field division (total, with `x / 0 = 0`).
Rust's numeric `Display`/`format!` rendering of numbers inside message
strings is modelled by `fmtNum` below; none of the verified claims
depend on the exact digit rendering, only on the fixed text around it
and on the category strings, which are taken verbatim from the source.
`Vec::sort_by` (a stable comparison sort) is modelled by the stable
`List.insertionSort`.
-/

namespace Ampere

/-- Transistor type enumeration (`enum TransistorType`). -/
inductive TransistorType where
  | NChannelMosfet
  | PChannelMosfet
  | GaNFet
  | NpnBjt
  | PnpBjt
  | Igbt
deriving DecidableEq, Repr

/-- Mirror of `TransistorType::is_mosfet_type`. -/
def TransistorType.is_mosfet_type : TransistorType → Bool
  | .NChannelMosfet => true
  | .PChannelMosfet => true
  | .GaNFet => true
  | _ => false

/-- Model of Rust `str::contains` (case-sensitive substring test). -/
def strContains (s pat : String) : Bool :=
  s.data.tails.any fun t => pat.data.isPrefixOf t

/-- Mirror of `TransistorType::from_string`: guards tried in source order,
with `NChannelMosfet` as the default. -/
def TransistorType.from_string (s : String) : TransistorType :=
  if strContains s "MOSFET" && strContains s "N-Channel" then .NChannelMosfet
  else if strContains s "MOSFET" && strContains s "P-Channel" then .PChannelMosfet
  else if strContains s "GaN" then .GaNFet
  else if strContains s "NPN" then .NpnBjt
  else if strContains s "PNP" then .PnpBjt
  else if strContains s "IGBT" then .Igbt
  else .NChannelMosfet

/-- Simulation mode enumeration (`enum SimulationMode`). -/
inductive SimulationMode where
  | Ftf
  | Temp
  | Budget
deriving DecidableEq, Repr

/-- Simulation algorithm enumeration (`enum SimulationAlgorithm`). -/
inductive SimulationAlgorithm where
  | Iterative
  | Binary
deriving DecidableEq, Repr

/-- Mirror of `struct SimulationParams`.  `f64` fields are `ℚ`,
`u32 precision_steps` is `ℕ`. -/
structure SimulationParams where
  max_current : ℚ
  max_voltage : ℚ
  power_dissipation : Option ℚ
  rth_jc : ℚ
  rise_time : ℚ
  fall_time : ℚ
  switching_frequency : ℚ
  max_temperature : ℚ
  ambient_temperature : ℚ
  total_rth : ℚ
  transistor_type : String
  rds_on_ohms : ℚ
  vce_sat : Option ℚ
  simulation_mode : SimulationMode
  cooling_budget : Option ℚ
  simulation_algorithm : SimulationAlgorithm
  precision_steps : ℕ
  effective_cooling_budget : ℚ
deriving DecidableEq, Repr

/-- Mirror of `struct PowerDissipation`. -/
structure PowerDissipation where
  total : ℚ
  conduction : ℚ
  switching : ℚ
deriving DecidableEq, Repr

/-- Mirror of `struct CheckResult`. -/
structure CheckResult where
  is_safe : Bool
  failure_reason : Option String
  details : String
  final_temperature : ℚ
  power_dissipation : PowerDissipation
deriving DecidableEq, Repr

/-- Mirror of `struct DataPoint`. -/
structure DataPoint where
  current : ℚ
  temperature : ℚ
  power_loss : ℚ
  conduction_loss : ℚ
  switching_loss : ℚ
  progress : ℚ
  limit_value : ℚ
  check_result : CheckResult
deriving DecidableEq, Repr

/-- Mirror of `struct SimulationResult`. -/
structure SimulationResult where
  status : String
  max_safe_current : ℚ
  failure_reason : Option String
  details : String
  final_temperature : ℚ
  power_dissipation : PowerDissipation
  data_points : List DataPoint
deriving DecidableEq, Repr

/-- Mirror of `struct SimulationEngine`: the parameters plus the device
family derived once in `SimulationEngine::new`. -/
structure SimulationEngine where
  params : SimulationParams
  transistor_type : TransistorType
deriving DecidableEq, Repr

/-- Mirror of `SimulationEngine::new`. -/
def SimulationEngine.new (params : SimulationParams) : SimulationEngine :=
  { params := params, transistor_type := .from_string params.transistor_type }

/-- Model of the numeric rendering used by the Rust `format!` calls
(`{}` and two-decimal forms).  The claims under verification do not
depend on digit rendering, so any injective-enough rendering works;
we print the reduced fraction. -/
def fmtNum (q : ℚ) : String :=
  toString q.num ++ "/" ++ toString q.den

/-- Mirror of `SimulationEngine::check_other_limits`. -/
def SimulationEngine.check_other_limits (e : SimulationEngine)
    (current p_total : ℚ) : Option String × String :=
  if e.params.simulation_mode ≠ SimulationMode.Temp
      ∧ e.params.effective_cooling_budget < p_total then
    (some "Cooling Budget",
      "Exceeded cooling budget of " ++ fmtNum e.params.effective_cooling_budget
        ++ "W. Reached " ++ fmtNum p_total ++ "W.")
  else if e.params.max_current < current then
    (some "Current",
      "Exceeded max current rating of " ++ fmtNum e.params.max_current ++ "A.")
  else
    (none, "Operating within safe limits.")

/-- Mirror of `SimulationEngine::determine_failure`. -/
def SimulationEngine.determine_failure (e : SimulationEngine)
    (current final_temp p_total : ℚ) : Option String × String :=
  if e.params.max_temperature < final_temp then
    (some "Thermal",
      "Exceeded max junction temp of " ++ fmtNum e.params.max_temperature
        ++ "°C. Reached " ++ fmtNum final_temp ++ "°C.")
  else
    match e.params.power_dissipation with
    | some pd =>
        if pd < p_total then
          (some "Power Dissipation",
            "Exceeded component's max power dissipation of " ++ fmtNum pd
              ++ "W. Reached " ++ fmtNum p_total ++ "W.")
        else
          e.check_other_limits current p_total
    | none => e.check_other_limits current p_total

/-- Conduction loss (`let p_cond` in `SimulationEngine::check_current`). -/
def SimulationEngine.p_cond (e : SimulationEngine) (current : ℚ) : ℚ :=
  if e.transistor_type.is_mosfet_type then
    current ^ 2 * e.params.rds_on_ohms * (1 / 2)
  else
    current * (e.params.vce_sat.getD 0) * (1 / 2)

/-- Switching loss (`let p_sw` in `SimulationEngine::check_current`,
with `rise_fall_sum` and `freq_hz` inlined). -/
def SimulationEngine.p_sw (e : SimulationEngine) (current : ℚ) : ℚ :=
  (1 / 2) * e.params.max_voltage * current
    * ((e.params.rise_time + e.params.fall_time) * (1 / 1000000000))
    * (e.params.switching_frequency * 1000)

/-- Total power (`let p_total` in `SimulationEngine::check_current`). -/
def SimulationEngine.p_total (e : SimulationEngine) (current : ℚ) : ℚ :=
  e.p_cond current + e.p_sw current

/-- Junction temperature (`let final_temp` in
`SimulationEngine::check_current`, with `temp_rise` inlined). -/
def SimulationEngine.final_temp (e : SimulationEngine) (current : ℚ) : ℚ :=
  e.params.ambient_temperature + e.p_total current * e.params.total_rth

/-- Mirror of `SimulationEngine::check_current`. -/
def SimulationEngine.check_current (e : SimulationEngine) (current : ℚ) :
    CheckResult :=
  let fd := e.determine_failure current (e.final_temp current) (e.p_total current)
  let is_safe :=
    match e.params.simulation_mode with
    | .Temp => decide (e.final_temp current ≤ e.params.max_temperature)
    | .Budget => decide (e.p_total current ≤ e.params.effective_cooling_budget)
    | .Ftf => fd.1.isNone
  { is_safe := is_safe
    failure_reason := fd.1
    details := fd.2
    final_temperature := e.final_temp current
    power_dissipation :=
      { total := e.p_total current
        conduction := e.p_cond current
        switching := e.p_sw current } }

/-- Mirror of `SimulationEngine::create_data_point`. -/
def SimulationEngine.create_data_point (e : SimulationEngine) (current : ℚ) :
    DataPoint :=
  let cr := e.check_current current
  let pl : ℚ × ℚ :=
    match e.params.simulation_mode with
    | .Temp =>
        (cr.final_temperature / e.params.max_temperature * 100,
          e.params.max_temperature)
    | .Budget =>
        (cr.power_dissipation.total / e.params.effective_cooling_budget * 100,
          e.params.effective_cooling_budget)
    | .Ftf =>
        let temp_progress := cr.final_temperature / e.params.max_temperature * 100
        let power_progress :=
          match e.params.power_dissipation with
          | some pd => cr.power_dissipation.total / pd * 100
          | none => 0
        let budget_progress :=
          cr.power_dissipation.total / e.params.effective_cooling_budget * 100
        let current_progress := current / e.params.max_current * 100
        (max (max (max temp_progress power_progress) budget_progress)
          current_progress, 100)
  { current := current
    temperature := cr.final_temperature
    power_loss := cr.power_dissipation.total
    conduction_loss := cr.power_dissipation.conduction
    switching_loss := cr.power_dissipation.switching
    progress := min pl.1 100
    limit_value := pl.2
    check_result := cr }

/-- Text of the all-safe summary message built by both strategies. -/
def safe_message (q : ℚ) : String :=
  "Device operates safely up to " ++ fmtNum q ++ "A within all limits."

/-- Loop of `SimulationEngine::run_iterative`: `i` is the next sample
index, `fuel` the number of samples still to evaluate, `maxSafe` the
running `max_safe_current`, `acc` the curve points collected so far in
reverse order.  On the first unsafe sample it stops and builds the
summary from that point; when the fuel is exhausted it builds the
all-safe summary from a fresh check of `maxSafe`. -/
def SimulationEngine.run_iterative_aux (e : SimulationEngine) (step : ℚ) :
    ℕ → ℕ → ℚ → List DataPoint → SimulationResult
  | _, 0, maxSafe, acc =>
      let fc := e.check_current maxSafe
      { status := "success"
        max_safe_current := maxSafe
        failure_reason := none
        details := safe_message maxSafe
        final_temperature := fc.final_temperature
        power_dissipation := fc.power_dissipation
        data_points := acc.reverse }
  | i, fuel + 1, maxSafe, acc =>
      let current := (i : ℚ) * step
      let dp := e.create_data_point current
      if dp.check_result.is_safe then
        e.run_iterative_aux step (i + 1) fuel current (dp :: acc)
      else
        { status := "success"
          max_safe_current := maxSafe
          failure_reason := dp.check_result.failure_reason
          details := dp.check_result.details
          final_temperature := dp.check_result.final_temperature
          power_dissipation := dp.check_result.power_dissipation
          data_points := (dp :: acc).reverse }

/-- Mirror of `SimulationEngine::run_iterative`: sample currents are
`i * (1.2 * max_current / precision_steps)` for `i = 0, ..., precision_steps`. -/
def SimulationEngine.run_iterative (e : SimulationEngine) : SimulationResult :=
  e.run_iterative_aux
    (e.params.max_current * (6 / 5) / (e.params.precision_steps : ℚ))
    0 (e.params.precision_steps + 1) 0 []

/-- The linear sweep's sample point at index `k`: the data point for
current `k * step` (the loop body's `i as f64 * (range / steps)`). -/
def sampleAt (e : SimulationEngine) (step : ℚ) (k : ℕ) : DataPoint :=
  e.create_data_point ((k : ℚ) * step)

/-- Model of the binary-search iteration budget
`((high - low).log2() * 15.0) as u32` with `high - low = x`: over the
reals, for `x ≥ 1` the truncating cast gives
`⌊15 · log2 x⌋ = ⌊log2 (x^15)⌋ = Nat.log 2 ⌊x^15⌋`; for `x < 1` the
product is negative (or NaN) and the saturating `as u32` cast gives 0. -/
def maxIterations (x : ℚ) : ℕ :=
  if 1 ≤ x then Nat.log 2 (Int.toNat ⌊x ^ 15⌋) else 0

/-- Loop of `SimulationEngine::run_binary_search`: returns the final
`max_safe_current` together with the curve points in evaluation order. -/
def SimulationEngine.run_binary_search_aux (e : SimulationEngine) :
    ℕ → ℚ → ℚ → ℚ → List DataPoint → ℚ × List DataPoint
  | 0, _, _, maxSafe, acc => (maxSafe, acc)
  | fuel + 1, low, high, maxSafe, acc =>
      if high - low < 1 / 100 then (maxSafe, acc)
      else
        let mid := (low + high) / 2
        if mid ≤ 0 then (maxSafe, acc)
        else
          let dp := e.create_data_point mid
          if dp.check_result.is_safe then
            e.run_binary_search_aux fuel mid high mid (acc ++ [dp])
          else
            e.run_binary_search_aux fuel low mid maxSafe (acc ++ [dp])

/-- Model of `data_points.sort_by(|a, b| a.current.partial_cmp(&b.current))`:
a stable sort by ascending current. -/
def sortPoints (l : List DataPoint) : List DataPoint :=
  l.insertionSort fun a b => a.current ≤ b.current

/-- Mirror of `SimulationEngine::run_binary_search`. -/
def SimulationEngine.run_binary_search (e : SimulationEngine) :
    SimulationResult :=
  let low : ℚ := 0
  let high := e.params.max_current * (3 / 2)
  let r := e.run_binary_search_aux (maxIterations (high - low)) low high 0 []
  let fc := e.check_current r.1
  { status := "success"
    max_safe_current := r.1
    failure_reason := none
    details := safe_message r.1
    final_temperature := fc.final_temperature
    power_dissipation := fc.power_dissipation
    data_points := sortPoints r.2 }

/-- Mirror of `SimulationEngine::run`. -/
def SimulationEngine.run (e : SimulationEngine) : SimulationResult :=
  match e.params.simulation_algorithm with
  | .Iterative => e.run_iterative
  | .Binary => e.run_binary_search

/-- Mirror of the boundary entry point `run_simulation` in `lib.rs`. -/
def run_simulation (params : SimulationParams) :
    Except String SimulationResult :=
  .ok (SimulationEngine.new params).run

/-- Failure category chain exactly as the specification words it
(section 4.1, steps 1-5): a flat fixed-priority conditional whose only
mode dependence is the guard of step 3.  Used to compare the code's
nested `determine_failure`/`check_other_limits` against the spec. -/
def failureCategorySpec (p : SimulationParams) (current final_temp p_total : ℚ) :
    Option String :=
  if p.max_temperature < final_temp then some "Thermal"
  else if (p.power_dissipation.any fun pd => decide (pd < p_total)) = true then
    some "Power Dissipation"
  else if p.simulation_mode ≠ SimulationMode.Temp
      ∧ p.effective_cooling_budget < p_total then some "Cooling Budget"
  else if p.max_current < current then some "Current"
  else none

/-- Baseline parameter record (the repository's `create_test_params`),
used to instantiate witnesses. -/
def pBase : SimulationParams :=
  { max_current := 49
    max_voltage := 55
    power_dissipation := some 94
    rth_jc := 1
    rise_time := 60
    fall_time := 45
    switching_frequency := 100
    max_temperature := 150
    ambient_temperature := 25
    total_rth := 3 / 2
    transistor_type := "MOSFET (N-Channel)"
    rds_on_ohms := 7 / 400
    vce_sat := none
    simulation_mode := .Ftf
    cooling_budget := none
    simulation_algorithm := .Iterative
    precision_steps := 200
    effective_cooling_budget := 250 }

/-- Lossless temperature-mode parameters with a small current rating:
at 10 A the temperature gate passes while the classification chain
reports a Current failure, so verdict and message diverge. -/
def pTempCur : SimulationParams :=
  { pBase with
    max_current := 5
    max_voltage := 0
    power_dissipation := none
    rds_on_ohms := 0
    simulation_mode := .Temp }

/-- Lossless temperature-mode parameters with a negative rated current:
the linear sweep's sample step is negative, so sampled currents
decrease. -/
def pIterNeg : SimulationParams :=
  { pTempCur with
    max_current := -1
    precision_steps := 1 }

/-- Lossless temperature-mode parameters with a sub-zero ambient
temperature: the pre-clamp progress ratio is negative and the `min`
clamp does not raise it. -/
def pColdAmbient : SimulationParams :=
  { pTempCur with ambient_temperature := -40 }

/-- Valid parameters (steps >= 1, positive max current, non-negative
thermal resistance and budget) whose binary-search iteration budget is
zero: `1.5 * 0.5 = 0.75 < 1`, so the saturating cast yields no
iterations at all. -/
def pBinTiny : SimulationParams :=
  { pBase with
    max_current := 1 / 2,
    simulation_algorithm := .Binary }

/-- Lossless first-to-fail parameters with `max_current = 0.7` and an
unreachable (negative) temperature limit under binary search: the
iteration budget is exactly one (`floor(log2(1.05) * 15) = 1`), and the
single sampled point fails the Thermal check, so an unsafe point is
stored in the curve. -/
def pBinSmall : SimulationParams :=
  { pBase with
    max_current := 7 / 10
    max_voltage := 0
    power_dissipation := none
    rds_on_ohms := 0
    max_temperature := -100
    simulation_algorithm := .Binary }

/-- Lossless temperature-mode parameters with one sweep step: both
samples (0 A and 1.2 A) are safe, giving a two-point curve. -/
def pIterSmall : SimulationParams :=
  { pTempCur with
    max_current := 1
    precision_steps := 1 }

/-- Behaviour claimed for the linear sweep (claim C4, amended with
`max_current > 0`): currents are sampled at `i * (1.2 * I_max / steps)`
in strictly increasing order starting at 0; either every sample is safe
and the curve holds all `steps + 1` samples with the all-safe summary
and `max_safe_current` the last sample, or there is a first unsafe
sample, the curve holds exactly the samples up to and including it, the
summary's failure fields come from it, and `max_safe_current` is the
preceding sample (0 when the first sample is unsafe). -/
def IterativeSweepClaim (p : SimulationParams) : Prop :=
  let e := SimulationEngine.new p
  let n := p.precision_steps
  let step := p.max_current * (6 / 5) / (n : ℚ)
  let r := e.run_iterative
  List.Sorted (· < ·) (r.data_points.map DataPoint.current) ∧
  (r.data_points.map DataPoint.current).head? = some 0 ∧
  (((∀ i, i ≤ n → (sampleAt e step i).check_result.is_safe = true) ∧
      r.data_points = (List.range (n + 1)).map (sampleAt e step) ∧
      r.max_safe_current = (n : ℚ) * step ∧
      r.failure_reason = none ∧
      r.details = safe_message ((n : ℚ) * step)) ∨
    (∃ k, k ≤ n ∧
      (∀ j, j < k → (sampleAt e step j).check_result.is_safe = true) ∧
      (sampleAt e step k).check_result.is_safe = false ∧
      r.data_points = (List.range (k + 1)).map (sampleAt e step) ∧
      r.max_safe_current = (if k = 0 then 0 else ((k - 1 : ℕ) : ℚ) * step) ∧
      r.failure_reason = (e.check_current ((k : ℚ) * step)).failure_reason ∧
      r.details = (e.check_current ((k : ℚ) * step)).details ∧
      r.final_temperature = (e.check_current ((k : ℚ) * step)).final_temperature ∧
      r.power_dissipation = (e.check_current ((k : ℚ) * step)).power_dissipation))

instance : IsTotal DataPoint fun a b => a.current ≤ b.current :=
  ⟨fun a b => le_total a.current b.current⟩

instance : IsTrans DataPoint fun a b => a.current ≤ b.current :=
  ⟨fun _ _ _ h h2 => le_trans h h2⟩

/-! Helper lemmas about the engine components. -/

theorem params_new (p : SimulationParams) : (SimulationEngine.new p).params = p :=
  rfl

theorem check_current_failure_eq (e : SimulationEngine) (c : ℚ) :
    (e.check_current c).failure_reason =
      (e.determine_failure c (e.final_temp c) (e.p_total c)).1 :=
  rfl

theorem check_current_details_eq (e : SimulationEngine) (c : ℚ) :
    (e.check_current c).details =
      (e.determine_failure c (e.final_temp c) (e.p_total c)).2 :=
  rfl

theorem check_current_temp_eq (e : SimulationEngine) (c : ℚ) :
    (e.check_current c).final_temperature = e.final_temp c :=
  rfl

theorem check_current_power_eq (e : SimulationEngine) (c : ℚ) :
    (e.check_current c).power_dissipation =
      { total := e.p_total c, conduction := e.p_cond c, switching := e.p_sw c } :=
  rfl

theorem create_data_point_check_result (e : SimulationEngine) (c : ℚ) :
    (e.create_data_point c).check_result = e.check_current c :=
  rfl

theorem create_data_point_current (e : SimulationEngine) (c : ℚ) :
    (e.create_data_point c).current = c :=
  rfl

/-! Theorems for the claims. -/

/-- C1.  For every parameter set and every current level, conduction
loss is `I^2 * R_on * 0.5` exactly for the resistive-conduction
families (N-channel MOSFET, P-channel MOSFET, GaN FET) and
`I * V_sat * 0.5` (with absent `V_sat` read as 0) for the others;
switching loss is `0.5 * V_max * I * (t_rise + t_fall) * 1e-9 *
(f_sw * 1000)`; total power is exactly conduction plus switching; and
the junction temperature is `T_ambient + P_total * R_th_total`. -/
theorem check_current_loss_model (p : SimulationParams) (I : ℚ) :
    ((SimulationEngine.new p).check_current I).power_dissipation.conduction =
      (if (SimulationEngine.new p).transistor_type.is_mosfet_type then
        I ^ 2 * p.rds_on_ohms * (1 / 2)
      else I * (p.vce_sat.getD 0) * (1 / 2)) ∧
    ((SimulationEngine.new p).transistor_type.is_mosfet_type = true ↔
      ((SimulationEngine.new p).transistor_type = .NChannelMosfet ∨
        (SimulationEngine.new p).transistor_type = .PChannelMosfet ∨
        (SimulationEngine.new p).transistor_type = .GaNFet)) ∧
    ((SimulationEngine.new p).check_current I).power_dissipation.switching =
      1 / 2 * p.max_voltage * I * (p.rise_time + p.fall_time) * (1 / 1000000000)
        * (p.switching_frequency * 1000) ∧
    ((SimulationEngine.new p).check_current I).power_dissipation.total =
      ((SimulationEngine.new p).check_current I).power_dissipation.conduction +
        ((SimulationEngine.new p).check_current I).power_dissipation.switching ∧
    ((SimulationEngine.new p).check_current I).final_temperature =
      p.ambient_temperature +
        ((SimulationEngine.new p).check_current I).power_dissipation.total *
          p.total_rth := by
  refine ⟨rfl, ?_, ?_, rfl, rfl⟩
  · cases (SimulationEngine.new p).transistor_type <;>
      simp [TransistorType.is_mosfet_type]
  · show (SimulationEngine.new p).p_sw I = _
    unfold SimulationEngine.p_sw
    rw [params_new]
    ring

/-- C2.  The failure category and detail are produced by the fixed
priority chain of the spec (Thermal, then configured Power Dissipation,
then Cooling Budget gated on the mode not being TemperatureOnly, then
Current, then none with the safe-limits message); in particular under
TemperatureOnly mode the Cooling Budget category is never produced. -/
theorem determine_failure_chain (p : SimulationParams)
    (current final_temp p_total : ℚ) :
    ((SimulationEngine.new p).determine_failure current final_temp p_total).1 =
      failureCategorySpec p current final_temp p_total ∧
    (((SimulationEngine.new p).determine_failure current final_temp p_total).1
        = none →
      ((SimulationEngine.new p).determine_failure current final_temp p_total).2
        = "Operating within safe limits.") ∧
    (p.simulation_mode = SimulationMode.Temp →
      ((SimulationEngine.new p).determine_failure current final_temp p_total).1
        ≠ some "Cooling Budget") := by
  unfold SimulationEngine.determine_failure SimulationEngine.check_other_limits
    failureCategorySpec
  rw [params_new]
  cases hpd : p.power_dissipation <;>
    · simp only [hpd, Option.any_none, Option.any_some, decide_eq_true_eq]
      split_ifs <;> simp_all

/-- Witness for C2: at concrete inputs in TemperatureOnly mode with the
cooling budget grossly exceeded, the chain matches the spec chain and
still does not produce the Cooling Budget category. -/
theorem determine_failure_chain_witness :
    ((SimulationEngine.new pTempCur).determine_failure 0 0 1000).1 =
      failureCategorySpec pTempCur 0 0 1000 ∧
    ((SimulationEngine.new pTempCur).determine_failure 0 0 1000).1 ≠
      some "Cooling Budget" :=
  ⟨(determine_failure_chain pTempCur 0 0 1000).1,
    (determine_failure_chain pTempCur 0 0 1000).2.2 rfl⟩

/-- C3.  The safe/unsafe verdict depends only on the mode's gate:
TemperatureOnly compares temperature, BudgetOnly compares total power
against the effective cooling budget, FirstToFail checks that the
classification produced no category; and (last two conjuncts) the
verdict can diverge from the classification message: a concrete
temperature-mode point is safe while its message reports Current. -/
theorem check_current_safety_gate (p : SimulationParams) (I : ℚ) :
    (p.simulation_mode = SimulationMode.Temp →
      (((SimulationEngine.new p).check_current I).is_safe = true ↔
        ((SimulationEngine.new p).check_current I).final_temperature ≤
          p.max_temperature)) ∧
    (p.simulation_mode = SimulationMode.Budget →
      (((SimulationEngine.new p).check_current I).is_safe = true ↔
        ((SimulationEngine.new p).check_current I).power_dissipation.total ≤
          p.effective_cooling_budget)) ∧
    (p.simulation_mode = SimulationMode.Ftf →
      (((SimulationEngine.new p).check_current I).is_safe = true ↔
        ((SimulationEngine.new p).check_current I).failure_reason = none)) ∧
    ((SimulationEngine.new pTempCur).check_current 10).is_safe = true ∧
    ((SimulationEngine.new pTempCur).check_current 10).failure_reason =
      some "Current" := by
  refine ⟨?_, ?_, ?_, ?_, ?_⟩
  · intro hm
    show (match (SimulationEngine.new p).params.simulation_mode with
      | SimulationMode.Temp => _
      | SimulationMode.Budget => _
      | SimulationMode.Ftf => _) = true ↔ _
    rw [params_new, hm]
    simp [check_current_temp_eq]
  · intro hm
    show (match (SimulationEngine.new p).params.simulation_mode with
      | SimulationMode.Temp => _
      | SimulationMode.Budget => _
      | SimulationMode.Ftf => _) = true ↔ _
    rw [params_new, hm]
    simp [check_current_power_eq]
  · intro hm
    show (match (SimulationEngine.new p).params.simulation_mode with
      | SimulationMode.Temp => _
      | SimulationMode.Budget => _
      | SimulationMode.Ftf => _) = true ↔ _
    rw [params_new, hm]
    simp [check_current_failure_eq, Option.isNone_iff_eq_none]
  · with_unfolding_all decide
  · with_unfolding_all decide

/-- Witness for C3: in TemperatureOnly mode the verdict gate is the
temperature comparison, instantiated at concrete parameters. -/
theorem check_current_safety_gate_witness :
    ((SimulationEngine.new pTempCur).check_current 10).is_safe = true ↔
      ((SimulationEngine.new pTempCur).check_current 10).final_temperature ≤
        pTempCur.max_temperature :=
  (check_current_safety_gate pTempCur 10).1 rfl

/-- C8.  Device-family classification is the fixed-priority,
case-sensitive substring match of the source, with unmatched labels
defaulting to the N-channel MOSFET family; and the resistive-conduction
families are exactly N-channel MOSFET, P-channel MOSFET and GaN FET.
The first six conjuncts characterise each outcome by its guard and the
negation of all higher-priority guards; the final conjuncts instantiate
the spec's three example labels. -/
theorem from_string_priority (s : String) :
    (TransistorType.from_string s = .NChannelMosfet ↔
      ((strContains s "MOSFET" && strContains s "N-Channel") = true ∨
        ((strContains s "MOSFET" && strContains s "N-Channel") = false ∧
          (strContains s "MOSFET" && strContains s "P-Channel") = false ∧
          strContains s "GaN" = false ∧ strContains s "NPN" = false ∧
          strContains s "PNP" = false ∧ strContains s "IGBT" = false))) ∧
    (TransistorType.from_string s = .PChannelMosfet ↔
      ((strContains s "MOSFET" && strContains s "N-Channel") = false ∧
        (strContains s "MOSFET" && strContains s "P-Channel") = true)) ∧
    (TransistorType.from_string s = .GaNFet ↔
      ((strContains s "MOSFET" && strContains s "N-Channel") = false ∧
        (strContains s "MOSFET" && strContains s "P-Channel") = false ∧
        strContains s "GaN" = true)) ∧
    (TransistorType.from_string s = .NpnBjt ↔
      ((strContains s "MOSFET" && strContains s "N-Channel") = false ∧
        (strContains s "MOSFET" && strContains s "P-Channel") = false ∧
        strContains s "GaN" = false ∧ strContains s "NPN" = true)) ∧
    (TransistorType.from_string s = .PnpBjt ↔
      ((strContains s "MOSFET" && strContains s "N-Channel") = false ∧
        (strContains s "MOSFET" && strContains s "P-Channel") = false ∧
        strContains s "GaN" = false ∧ strContains s "NPN" = false ∧
        strContains s "PNP" = true)) ∧
    (TransistorType.from_string s = .Igbt ↔
      ((strContains s "MOSFET" && strContains s "N-Channel") = false ∧
        (strContains s "MOSFET" && strContains s "P-Channel") = false ∧
        strContains s "GaN" = false ∧ strContains s "NPN" = false ∧
        strContains s "PNP" = false ∧ strContains s "IGBT" = true)) ∧
    (∀ t : TransistorType, t.is_mosfet_type = true ↔
      (t = .NChannelMosfet ∨ t = .PChannelMosfet ∨ t = .GaNFet)) ∧
    TransistorType.from_string "MOSFET (N-Channel)" = .NChannelMosfet ∧
    TransistorType.from_string "Trench IGBT Module" = .Igbt ∧
    TransistorType.from_string "mystery device" = .NChannelMosfet := by
  refine ⟨?_, ?_, ?_, ?_, ?_, ?_, ?_, by decide, by decide, by decide⟩
  · unfold TransistorType.from_string
    split_ifs <;> simp_all
  · unfold TransistorType.from_string
    split_ifs <;> simp_all
  · unfold TransistorType.from_string
    split_ifs <;> simp_all
  · unfold TransistorType.from_string
    split_ifs <;> simp_all
  · unfold TransistorType.from_string
    split_ifs <;> simp_all
  · unfold TransistorType.from_string
    split_ifs <;> simp_all
  · intro t
    cases t <;> simp [TransistorType.is_mosfet_type]

/-- Status of the linear-sweep loop is always the success marker. -/
theorem run_iterative_aux_status (e : SimulationEngine) (step : ℚ) :
    ∀ fuel i ms acc, (e.run_iterative_aux step i fuel ms acc).status =
      "success" := by
  intro fuel
  induction fuel with
  | zero => intro i ms acc; rfl
  | succ n ih =>
      intro i ms acc
      unfold SimulationEngine.run_iterative_aux
      dsimp only
      split
      · exact ih (i + 1) _ _
      · rfl

/-- Progress formula in TemperatureOnly mode. -/
theorem progress_temp_mode (e : SimulationEngine) (c : ℚ)
    (hm : e.params.simulation_mode = SimulationMode.Temp) :
    (e.create_data_point c).progress =
      min ((e.check_current c).final_temperature / e.params.max_temperature
        * 100) 100 := by
  unfold SimulationEngine.create_data_point
  rw [hm]

/-- Progress formula in BudgetOnly mode. -/
theorem progress_budget_mode (e : SimulationEngine) (c : ℚ)
    (hm : e.params.simulation_mode = SimulationMode.Budget) :
    (e.create_data_point c).progress =
      min ((e.check_current c).power_dissipation.total /
        e.params.effective_cooling_budget * 100) 100 := by
  unfold SimulationEngine.create_data_point
  rw [hm]

/-- Progress formula in FirstToFail mode: the maximum of the four
candidate ratios, clamped. -/
theorem progress_ftf_mode (e : SimulationEngine) (c : ℚ)
    (hm : e.params.simulation_mode = SimulationMode.Ftf) :
    (e.create_data_point c).progress =
      min (max (max (max
        ((e.check_current c).final_temperature / e.params.max_temperature * 100)
        (match e.params.power_dissipation with
          | some pd => (e.check_current c).power_dissipation.total / pd * 100
          | none => 0))
        ((e.check_current c).power_dissipation.total /
          e.params.effective_cooling_budget * 100))
        (c / e.params.max_current * 100)) 100 := by
  unfold SimulationEngine.create_data_point
  rw [hm]

/-- Conduction loss is non-negative for non-negative inputs. -/
theorem p_cond_nonneg (e : SimulationEngine) (c : ℚ) (hI : 0 ≤ c)
    (hr : 0 ≤ e.params.rds_on_ohms) (hv : 0 ≤ e.params.vce_sat.getD 0) :
    0 ≤ e.p_cond c := by
  unfold SimulationEngine.p_cond
  split
  · exact mul_nonneg (mul_nonneg (by positivity) hr) (by norm_num)
  · exact mul_nonneg (mul_nonneg hI hv) (by norm_num)

/-- Switching loss is non-negative for non-negative inputs. -/
theorem p_sw_nonneg (e : SimulationEngine) (c : ℚ) (hI : 0 ≤ c)
    (hV : 0 ≤ e.params.max_voltage) (hrise : 0 ≤ e.params.rise_time)
    (hfall : 0 ≤ e.params.fall_time)
    (hf : 0 ≤ e.params.switching_frequency) : 0 ≤ e.p_sw c := by
  unfold SimulationEngine.p_sw
  have h1 : (0:ℚ) ≤ 1 / 2 := by norm_num
  have h2 : (0:ℚ) ≤ (e.params.rise_time + e.params.fall_time) *
      (1 / 1000000000) :=
    mul_nonneg (add_nonneg hrise hfall) (by norm_num)
  have h3 : (0:ℚ) ≤ e.params.switching_frequency * 1000 :=
    mul_nonneg hf (by norm_num)
  exact mul_nonneg (mul_nonneg (mul_nonneg (mul_nonneg h1 hV) hI) h2) h3

/-- C6 counterexample.  With a sub-zero ambient temperature in
TemperatureOnly mode, the clamped progress of the 0 A data point is
negative, so progress does not lie in `[0, 100]` for every evaluated
current and parameter set. -/
theorem progress_counterexample :
    ¬ (0 ≤ ((SimulationEngine.new pColdAmbient).create_data_point 0).progress) := by
  with_unfolding_all decide

/-- C6 amended.  The clamp bounds progress by 100 above for every
parameter set, mode and current; and progress lies in `[0, 100]`
whenever the current and the loss/thermal parameters are non-negative
and the mode limits (max temperature, effective cooling budget, max
current) are positive. -/
theorem progress_clamped (p : SimulationParams) (I : ℚ) :
    ((SimulationEngine.new p).create_data_point I).progress ≤ 100 ∧
    (0 ≤ I → 0 ≤ p.ambient_temperature → 0 < p.max_temperature →
      0 < p.effective_cooling_budget → 0 < p.max_current →
      0 ≤ p.rds_on_ohms → 0 ≤ p.vce_sat.getD 0 → 0 ≤ p.max_voltage →
      0 ≤ p.rise_time → 0 ≤ p.fall_time → 0 ≤ p.switching_frequency →
      0 ≤ p.total_rth →
      0 ≤ ((SimulationEngine.new p).create_data_point I).progress) := by
  constructor
  · exact min_le_right _ _
  · intro hI ha htm hb hmc hr hv hV hrise hfall hf hrth
    have htot : 0 ≤ (SimulationEngine.new p).p_total I :=
      add_nonneg (p_cond_nonneg _ _ hI hr hv)
        (p_sw_nonneg _ _ hI hV hrise hfall hf)
    have htemp : 0 ≤ ((SimulationEngine.new p).check_current I).final_temperature := by
      rw [check_current_temp_eq]
      exact add_nonneg ha (mul_nonneg htot hrth)
    have htotal : 0 ≤ ((SimulationEngine.new p).check_current I).power_dissipation.total := by
      rw [check_current_power_eq]
      exact htot
    cases hm : p.simulation_mode with
    | Temp =>
        rw [progress_temp_mode _ _ hm]
        exact le_min (mul_nonneg (div_nonneg htemp htm.le) (by norm_num))
          (by norm_num)
    | Budget =>
        rw [progress_budget_mode _ _ hm]
        exact le_min (mul_nonneg (div_nonneg htotal hb.le) (by norm_num))
          (by norm_num)
    | Ftf =>
        rw [progress_ftf_mode _ _ hm]
        refine le_min (le_trans ?_ (le_max_right _ _)) (by norm_num)
        exact mul_nonneg (div_nonneg hI hmc.le) (by norm_num)

/-- Witness for C6 amended: at the baseline parameters and 5 A the
progress is clamped inside `[0, 100]`. -/
theorem progress_clamped_witness :
    ((SimulationEngine.new pBase).create_data_point 5).progress ≤ 100 ∧
    0 ≤ ((SimulationEngine.new pBase).create_data_point 5).progress :=
  ⟨(progress_clamped pBase 5).1,
    (progress_clamped pBase 5).2 (by norm_num) (by with_unfolding_all decide)
      (by with_unfolding_all decide) (by with_unfolding_all decide)
      (by with_unfolding_all decide) (by with_unfolding_all decide)
      (by with_unfolding_all decide) (by with_unfolding_all decide)
      (by with_unfolding_all decide) (by with_unfolding_all decide)
      (by with_unfolding_all decide) (by with_unfolding_all decide)⟩

/-- C9.  The boundary entry point always returns the `Ok` variant
carrying the engine's summary, and the summary's status is `"success"`
under both strategies. -/
theorem run_simulation_success (p : SimulationParams) :
    run_simulation p = Except.ok (SimulationEngine.new p).run ∧
    (SimulationEngine.new p).run.status = "success" := by
  refine ⟨rfl, ?_⟩
  unfold SimulationEngine.run
  cases (SimulationEngine.new p).params.simulation_algorithm
  · exact run_iterative_aux_status _ _ _ _ _ _
  · rfl

/-- Sorting the curve sorts its current values. -/
theorem sortPoints_sorted (l : List DataPoint) :
    List.Sorted (· ≤ ·) ((sortPoints l).map DataPoint.current) := by
  unfold sortPoints
  exact List.pairwise_map.mpr (List.sorted_insertionSort _ l)

/-- C5.  The binary-search summary is always built from a fresh
evaluation of `max_safe_current`: its failure reason is empty and its
detail is the generic safe-operation message even when unsafe points
exist in the curve (final conjunct: a concrete run whose stored curve
contains an unsafe point); its temperature and power come from
`check_current` at `max_safe_current`; and the curve's currents are
non-decreasing after the final sort. -/
theorem run_binary_search_summary (p : SimulationParams) :
    (SimulationEngine.new p).run_binary_search.failure_reason = none ∧
    (SimulationEngine.new p).run_binary_search.details =
      safe_message (SimulationEngine.new p).run_binary_search.max_safe_current ∧
    (SimulationEngine.new p).run_binary_search.final_temperature =
      ((SimulationEngine.new p).check_current
        (SimulationEngine.new p).run_binary_search.max_safe_current).final_temperature ∧
    (SimulationEngine.new p).run_binary_search.power_dissipation =
      ((SimulationEngine.new p).check_current
        (SimulationEngine.new p).run_binary_search.max_safe_current).power_dissipation ∧
    List.Sorted (· ≤ ·)
      ((SimulationEngine.new p).run_binary_search.data_points.map
        DataPoint.current) ∧
    ((SimulationEngine.new pBinSmall).run_binary_search.data_points.any
      fun dp => !dp.check_result.is_safe) = true := by
  refine ⟨rfl, rfl, rfl, rfl, ?_, by with_unfolding_all decide⟩
  exact sortPoints_sorted _

/-- The linear-sweep loop never drops points already collected. -/
theorem run_iterative_aux_length_ge (e : SimulationEngine) (step : ℚ) :
    ∀ fuel i ms acc, acc.length ≤
      (e.run_iterative_aux step i fuel ms acc).data_points.length := by
  intro fuel
  induction fuel with
  | zero => intro i ms acc; simp [SimulationEngine.run_iterative_aux]
  | succ n ih =>
      intro i ms acc
      unfold SimulationEngine.run_iterative_aux
      dsimp only
      split
      · calc acc.length ≤ (e.create_data_point (↑i * step) :: acc).length := by
              simp
          _ ≤ _ := ih (i + 1) _ _
      · simp

/-- The binary-search loop never drops points already collected. -/
theorem run_binary_search_aux_length_ge (e : SimulationEngine) :
    ∀ fuel low high ms acc, acc.length ≤
      (e.run_binary_search_aux fuel low high ms acc).2.length := by
  intro fuel
  induction fuel with
  | zero => intro low high ms acc; simp [SimulationEngine.run_binary_search_aux]
  | succ n ih =>
      intro low high ms acc
      unfold SimulationEngine.run_binary_search_aux
      dsimp only
      split
      · exact le_refl _
      · split
        · exact le_refl _
        · split
          · exact le_trans (by simp) (ih _ _ _ _)
          · exact le_trans (by simp) (ih _ _ _ _)

/-- The binary-search loop adds at most one point per unit of fuel. -/
theorem run_binary_search_aux_length_le (e : SimulationEngine) :
    ∀ fuel low high ms acc,
      (e.run_binary_search_aux fuel low high ms acc).2.length ≤
        acc.length + fuel := by
  intro fuel
  induction fuel with
  | zero => intro low high ms acc; simp [SimulationEngine.run_binary_search_aux]
  | succ n ih =>
      intro low high ms acc
      unfold SimulationEngine.run_binary_search_aux
      dsimp only
      split
      · exact Nat.le_add_right _ _
      · split
        · exact Nat.le_add_right _ _
        · split
          · exact le_trans (ih _ _ _ _) (by simp; omega)
          · exact le_trans (ih _ _ _ _) (by simp; omega)

/-- The binary-search iteration budget is at least one once the initial
interval is at least `1.5`. -/
theorem maxIterations_pos (x : ℚ) (hx : 3 / 2 ≤ x) : 0 < maxIterations x := by
  unfold maxIterations
  rw [if_pos (le_trans (by norm_num) hx)]
  refine Nat.log_pos (by norm_num) ?_
  have h15 : (437 : ℚ) ≤ x ^ 15 :=
    le_trans (by norm_num) (pow_le_pow_left₀ (by norm_num) hx 15)
  have hfl : (437 : ℤ) ≤ ⌊x ^ 15⌋ := Int.le_floor.mpr (by exact_mod_cast h15)
  have := Int.toNat_le_toNat hfl
  omega

/-- C7 counterexample.  `pBinTiny` is a valid parameter set (step count
1, positive max current, non-negative thermal resistance and cooling
budget) yet the binary-search run returns an empty curve: the iteration
budget `floor(log2(0.75) * 15)` saturates to zero. -/
theorem run_curve_counterexample :
    1 ≤ pBinTiny.precision_steps ∧ 0 < pBinTiny.max_current ∧
    0 ≤ pBinTiny.total_rth ∧ 0 ≤ pBinTiny.effective_cooling_budget ∧
    pBinTiny.simulation_algorithm = SimulationAlgorithm.Binary ∧
    (SimulationEngine.new pBinTiny).run.data_points = [] := by
  refine ⟨by decide, by with_unfolding_all decide, by with_unfolding_all decide,
    by with_unfolding_all decide, rfl, by with_unfolding_all decide⟩

/-- C7 amended.  For every parameter set (no validity hypothesis
needed in the model, a total function): the linear sweep's curve is
always non-empty; the binary-search curve never holds more points than
the iteration budget fixed in advance as
`floor(log2(1.5 * I_max) * 15)`; when `I_max ≥ 1` the binary curve —
and hence `run`'s curve under either algorithm — is non-empty; and
whenever `(1.5 * I_max)^15 < 2` (every positive `I_max` below
`2^(1/15) / 1.5 ≈ 0.70`) the budget is zero and the binary curve is
empty, which is how the original claim fails. -/
theorem run_curve_nonempty (p : SimulationParams) :
    (SimulationEngine.new p).run_iterative.data_points ≠ [] ∧
    (SimulationEngine.new p).run_binary_search.data_points.length ≤
      maxIterations (p.max_current * (3 / 2)) ∧
    ((1 : ℚ) ≤ p.max_current →
      (SimulationEngine.new p).run_binary_search.data_points ≠ [] ∧
      (SimulationEngine.new p).run.data_points ≠ []) ∧
    ((p.max_current * (3 / 2)) ^ 15 < 2 →
      (SimulationEngine.new p).run_binary_search.data_points = []) := by
  have hiter : (SimulationEngine.new p).run_iterative.data_points ≠ [] := by
    rw [← List.length_pos_iff_ne_nil]
    unfold SimulationEngine.run_iterative SimulationEngine.run_iterative_aux
    dsimp only
    split
    · calc 0 < 1 := one_pos
        _ ≤ _ := run_iterative_aux_length_ge _ _ _ _ _ [_]
    · simp
  have hsub : p.max_current * (3 / 2) - 0 = p.max_current * (3 / 2) := by ring
  have hlen : (SimulationEngine.new p).run_binary_search.data_points.length ≤
      maxIterations (p.max_current * (3 / 2)) := by
    show (sortPoints _).length ≤ _
    unfold sortPoints
    rw [List.length_insertionSort, params_new]
    calc ((SimulationEngine.new p).run_binary_search_aux _ _ _ _ []).2.length
        ≤ ([] : List DataPoint).length + maxIterations (p.max_current * (3 / 2) - 0) :=
          run_binary_search_aux_length_le _ _ _ _ _ _
      _ = maxIterations (p.max_current * (3 / 2)) := by rw [hsub]; simp
  refine ⟨hiter, hlen, ?_, ?_⟩
  · intro hb
    have hfuel : 0 < maxIterations (p.max_current * (3 / 2) - 0) := by
      rw [hsub]
      exact maxIterations_pos _ (by linarith)
    have hbin : (SimulationEngine.new p).run_binary_search.data_points ≠ [] := by
      rw [← List.length_pos_iff_ne_nil]
      show 0 < (sortPoints _).length
      unfold sortPoints
      rw [List.length_insertionSort, params_new]
      obtain ⟨f, hf⟩ := Nat.exists_eq_succ_of_ne_zero (Nat.pos_iff_ne_zero.mp hfuel)
      rw [hf]
      unfold SimulationEngine.run_binary_search_aux
      dsimp only
      rw [if_neg (by intro hlt; rw [sub_zero] at hlt; nlinarith)]
      rw [if_neg (by intro hle; nlinarith)]
      split
      · calc 0 < 1 := one_pos
          _ = ([] ++ [_] : List DataPoint).length := by simp
          _ ≤ _ := run_binary_search_aux_length_ge _ _ _ _ _ _
      · calc 0 < 1 := one_pos
          _ = ([] ++ [_] : List DataPoint).length := by simp
          _ ≤ _ := run_binary_search_aux_length_ge _ _ _ _ _ _
    refine ⟨hbin, ?_⟩
    unfold SimulationEngine.run
    cases (SimulationEngine.new p).params.simulation_algorithm
    · exact hiter
    · exact hbin
  · intro hsmall
    have hz : maxIterations (p.max_current * (3 / 2) - 0) = 0 := by
      rw [hsub]
      unfold maxIterations
      split_ifs with hx1
      · have hfl : ⌊(p.max_current * (3 / 2)) ^ 15⌋ < 2 :=
          Int.floor_lt.mpr (by exact_mod_cast hsmall)
        have hle1 : ⌊(p.max_current * (3 / 2)) ^ 15⌋ ≤ 1 := by omega
        have htn := Int.toNat_le_toNat hle1
        exact Nat.log_of_lt (by omega)
      · rfl
    show sortPoints ((SimulationEngine.new p).run_binary_search_aux
        (maxIterations ((SimulationEngine.new p).params.max_current * (3 / 2) - 0))
        0 ((SimulationEngine.new p).params.max_current * (3 / 2)) 0 []).2 = []
    rw [params_new, hz]
    rfl

/-- Witness for C7 amended: the implications hold concretely — at the
baseline parameters (`I_max = 49 ≥ 1`) both the binary curve and
`run`'s curve are non-empty, while at `pBinTiny`
(`(1.5 * 0.5)^15 = 0.75^15 < 2`) the binary curve is empty. -/
theorem run_curve_nonempty_witness :
    ((SimulationEngine.new pBase).run_binary_search.data_points ≠ [] ∧
      (SimulationEngine.new pBase).run.data_points ≠ []) ∧
    (SimulationEngine.new pBinTiny).run_binary_search.data_points = [] :=
  ⟨(run_curve_nonempty pBase).2.2.1 (by with_unfolding_all decide),
    (run_curve_nonempty pBinTiny).2.2.2 (by with_unfolding_all decide)⟩

/-- Characterisation of the linear-sweep loop when every remaining
sample is safe: it stores every sample and finishes with the all-safe
summary built from the last sample (or the incoming running maximum
when no fuel remains). -/
theorem run_iterative_aux_all_safe (e : SimulationEngine) (step : ℚ) :
    ∀ fuel i ms acc,
      (∀ k, k < fuel → (sampleAt e step (i + k)).check_result.is_safe = true) →
      e.run_iterative_aux step i fuel ms acc =
        { status := "success"
          max_safe_current :=
            if fuel = 0 then ms else ((i + (fuel - 1) : ℕ) : ℚ) * step
          failure_reason := none
          details := safe_message
            (if fuel = 0 then ms else ((i + (fuel - 1) : ℕ) : ℚ) * step)
          final_temperature := (e.check_current
            (if fuel = 0 then ms
              else ((i + (fuel - 1) : ℕ) : ℚ) * step)).final_temperature
          power_dissipation := (e.check_current
            (if fuel = 0 then ms
              else ((i + (fuel - 1) : ℕ) : ℚ) * step)).power_dissipation
          data_points := acc.reverse ++
            (List.range fuel).map fun k => sampleAt e step (i + k) } := by
  intro fuel
  induction fuel with
  | zero =>
      intro i ms acc _
      simp [SimulationEngine.run_iterative_aux]
  | succ n ih =>
      intro i ms acc h
      have h0 : (e.create_data_point ((i : ℚ) * step)).check_result.is_safe
          = true := by
        simpa [sampleAt] using h 0 (Nat.succ_pos n)
      have hms : (if n = 0 then (i : ℚ) * step
          else ((i + 1 + (n - 1) : ℕ) : ℚ) * step) = ((i + n : ℕ) : ℚ) * step := by
        cases n with
        | zero => simp
        | succ m =>
            rw [if_neg (Nat.succ_ne_zero m)]
            exact congrArg (fun t : ℕ => ((t : ℚ) * step)) (by omega)
      have hhead : e.create_data_point ((i : ℚ) * step) =
          sampleAt e step (i + 0) := by
        simp [sampleAt]
      have htail : (List.range n).map (fun k => sampleAt e step (i + 1 + k)) =
          (List.range n).map ((fun k => sampleAt e step (i + k)) ∘ Nat.succ) :=
        List.map_congr_left fun j _ => by
          simp only [Function.comp_apply]
          exact congrArg (sampleAt e step) (by omega)
      have hdp : ((e.create_data_point ((i : ℚ) * step)) :: acc).reverse ++
            (List.range n).map (fun k => sampleAt e step (i + 1 + k)) =
          acc.reverse ++
            (List.range (n + 1)).map fun k => sampleAt e step (i + k) := by
        rw [List.reverse_cons, List.append_assoc, List.singleton_append,
          List.range_succ_eq_map, List.map_cons, List.map_map, hhead, htail]
      unfold SimulationEngine.run_iterative_aux
      dsimp only
      rw [if_pos h0]
      rw [if_neg (Nat.succ_ne_zero n), Nat.add_sub_cancel]
      rw [ih (i + 1) ((i : ℚ) * step)
        ((e.create_data_point ((i : ℚ) * step)) :: acc)
        (fun k hk => by
          have hx := h (k + 1) (by omega)
          have harith : i + (k + 1) = i + 1 + k := by omega
          rwa [harith] at hx)]
      rw [hms, hdp]

/-- Characterisation of the linear-sweep loop at the first unsafe
sample: samples up to and including it are stored, the loop stops, and
the summary's failure fields come from the unsafe sample while
`max_safe_current` is the previous sample (or the incoming running
maximum when the unsafe sample is the first one evaluated). -/
theorem run_iterative_aux_first_unsafe (e : SimulationEngine) (step : ℚ) :
    ∀ k fuel i ms acc, k < fuel →
      (∀ j, j < k → (sampleAt e step (i + j)).check_result.is_safe = true) →
      (sampleAt e step (i + k)).check_result.is_safe = false →
      e.run_iterative_aux step i fuel ms acc =
        { status := "success"
          max_safe_current :=
            if k = 0 then ms else ((i + (k - 1) : ℕ) : ℚ) * step
          failure_reason :=
            (e.check_current (((i + k : ℕ) : ℚ) * step)).failure_reason
          details := (e.check_current (((i + k : ℕ) : ℚ) * step)).details
          final_temperature :=
            (e.check_current (((i + k : ℕ) : ℚ) * step)).final_temperature
          power_dissipation :=
            (e.check_current (((i + k : ℕ) : ℚ) * step)).power_dissipation
          data_points := acc.reverse ++
            (List.range (k + 1)).map fun j => sampleAt e step (i + j) } := by
  intro k
  induction k with
  | zero =>
      intro fuel i ms acc hk _ hun
      cases fuel with
      | zero => omega
      | succ f =>
          have hun' : (e.create_data_point ((i : ℚ) * step)).check_result.is_safe
              = false := by
            simpa [sampleAt] using hun
          unfold SimulationEngine.run_iterative_aux
          dsimp only
          rw [hun']
          rw [if_neg Bool.false_ne_true]
          simp [sampleAt, List.reverse_cons, List.range_succ,
            create_data_point_check_result]
  | succ m ih =>
      intro fuel i ms acc hk hsafe hun
      cases fuel with
      | zero => omega
      | succ f =>
          have h0 : (e.create_data_point ((i : ℚ) * step)).check_result.is_safe
              = true := by
            simpa [sampleAt] using hsafe 0 (Nat.succ_pos m)
          have hms : (if m = 0 then (i : ℚ) * step
              else ((i + 1 + (m - 1) : ℕ) : ℚ) * step)
                = ((i + m : ℕ) : ℚ) * step := by
            cases m with
            | zero => simp
            | succ l =>
                rw [if_neg (Nat.succ_ne_zero l)]
                exact congrArg (fun t : ℕ => ((t : ℚ) * step)) (by omega)
          have hcc : (((i + 1 + m : ℕ) : ℚ) * step) =
              (((i + (m + 1) : ℕ) : ℚ) * step) :=
            congrArg (fun t : ℕ => ((t : ℚ) * step)) (by omega)
          have hhead : e.create_data_point ((i : ℚ) * step) =
              sampleAt e step (i + 0) := by
            simp [sampleAt]
          have htail : (List.range (m + 1)).map
                (fun j => sampleAt e step (i + 1 + j)) =
              (List.range (m + 1)).map
                ((fun j => sampleAt e step (i + j)) ∘ Nat.succ) :=
            List.map_congr_left fun j _ => by
              simp only [Function.comp_apply]
              exact congrArg (sampleAt e step) (by omega)
          have hdp : ((e.create_data_point ((i : ℚ) * step)) :: acc).reverse ++
                (List.range (m + 1)).map (fun j => sampleAt e step (i + 1 + j)) =
              acc.reverse ++
                (List.range (m + 1 + 1)).map fun j => sampleAt e step (i + j) := by
            conv_rhs => rw [List.range_succ_eq_map, List.map_cons, List.map_map]
            rw [List.reverse_cons, List.append_assoc, List.singleton_append,
              hhead, htail]
          unfold SimulationEngine.run_iterative_aux
          dsimp only
          rw [if_pos h0]
          rw [if_neg (Nat.succ_ne_zero m), Nat.add_sub_cancel]
          rw [ih f (i + 1) ((i : ℚ) * step)
            ((e.create_data_point ((i : ℚ) * step)) :: acc)
            (by omega)
            (fun j hj => by
              have hx := hsafe (j + 1) (by omega)
              have harith : i + (j + 1) = i + 1 + j := by omega
              rwa [harith] at hx)
            (by
              have harith : i + (m + 1) = i + 1 + m := by omega
              rwa [harith] at hun)]
          rw [hms, hcc, hdp]

/-- Currents of consecutive sweep samples are strictly increasing when
the step is positive. -/
theorem sorted_sample_range (e : SimulationEngine) (step : ℚ)
    (hstep : 0 < step) (m : ℕ) :
    List.Sorted (· < ·)
      (((List.range m).map (sampleAt e step)).map DataPoint.current) := by
  rw [List.map_map]
  have hfn : (DataPoint.current ∘ sampleAt e step) = fun k : ℕ => (k : ℚ) * step :=
    funext fun k => rfl
  rw [hfn]
  refine List.pairwise_map.mpr ((List.pairwise_lt_range m).imp ?_)
  intro a b hab
  exact mul_lt_mul_of_pos_right (by exact_mod_cast hab) hstep

/-- The first sweep sample carries current 0. -/
theorem head_sample_range (e : SimulationEngine) (step : ℚ) (m : ℕ) :
    ((((List.range (m + 1)).map (sampleAt e step))).map DataPoint.current).head?
      = some 0 := by
  rw [List.range_succ_eq_map]
  simp [sampleAt, create_data_point_current]

/-- C4 counterexample.  With step count 1 but a negative max current
(which the claim, as frozen, does not exclude), the sweep's sampled
currents are 0 then -1.2: they are not non-decreasing. -/
theorem run_iterative_counterexample :
    1 ≤ pIterNeg.precision_steps ∧
    ((SimulationEngine.new pIterNeg).run_iterative.data_points.map
      DataPoint.current) = [0, -(6 / 5)] ∧
    ¬ List.Sorted (· ≤ ·)
      ((SimulationEngine.new pIterNeg).run_iterative.data_points.map
        DataPoint.current) := by
  refine ⟨by decide, ?_, ?_⟩
  · with_unfolding_all decide
  · with_unfolding_all decide

/-- C4 amended.  For every parameter set with step count at least 1 and
positive max current, the linear sweep behaves as claimed: increasing
samples from 0, stop at the first unsafe sample, summary fields from
that sample, and `max_safe_current` the preceding sample or 0. -/
theorem run_iterative_spec (p : SimulationParams)
    (hn : 1 ≤ p.precision_steps) (hm : 0 < p.max_current) :
    IterativeSweepClaim p := by
  unfold IterativeSweepClaim
  dsimp only
  set e := SimulationEngine.new p with hedef
  set n := p.precision_steps with hndef
  set step := p.max_current * (6 / 5) / (n : ℚ) with hstepdef
  have hnpos : (0 : ℚ) < (n : ℚ) := by
    rw [hndef]
    exact_mod_cast Nat.lt_of_lt_of_le Nat.zero_lt_one hn
  have hstep : 0 < step := by
    rw [hstepdef]
    exact div_pos (by nlinarith) hnpos
  have hri : e.run_iterative = e.run_iterative_aux step 0 (n + 1) 0 [] := rfl
  by_cases hall : ∀ i, i ≤ n → (sampleAt e step i).check_result.is_safe = true
  · have hrun := run_iterative_aux_all_safe e step (n + 1) 0 0 []
      (fun k hk => by
        have hx := hall k (by omega)
        rwa [Nat.zero_add])
    have hdp : e.run_iterative.data_points =
        (List.range (n + 1)).map (sampleAt e step) := by
      rw [hri, hrun]
      simp
    refine ⟨by rw [hdp]; exact sorted_sample_range _ _ hstep _,
      by rw [hdp]; exact head_sample_range _ _ _,
      Or.inl ⟨hall, hdp, ?_, ?_, ?_⟩⟩
    · rw [hri, hrun]
      simp
    · rw [hri, hrun]
    · rw [hri, hrun]
      simp
  · push_neg at hall
    have hex : ∃ i, i ≤ n ∧ (sampleAt e step i).check_result.is_safe = false := by
      obtain ⟨i, hi, hb⟩ := hall
      exact ⟨i, hi, by simpa using hb⟩
    classical
    obtain ⟨w, hw⟩ := hex
    have hexd : ∃ i, i ≤ n ∧ (sampleAt e step i).check_result.is_safe = false :=
      ⟨w, hw⟩
    set K := Nat.find hexd with hKdef
    have hKspec := Nat.find_spec hexd
    have hsafe : ∀ j, j < K → (sampleAt e step j).check_result.is_safe = true := by
      intro j hj
      have hmin := Nat.find_min hexd hj
      have hjn : j ≤ n := le_trans (le_of_lt hj) hKspec.1
      by_contra hcon
      exact hmin ⟨hjn, by simpa using hcon⟩
    have hrun := run_iterative_aux_first_unsafe e step K (n + 1) 0 0 []
      (by omega)
      (fun j hj => by
        have hx := hsafe j hj
        rwa [Nat.zero_add])
      (by
        have hx := hKspec.2
        rwa [Nat.zero_add])
    have hdp : e.run_iterative.data_points =
        (List.range (K + 1)).map (sampleAt e step) := by
      rw [hri, hrun]
      simp
    refine ⟨by rw [hdp]; exact sorted_sample_range _ _ hstep _,
      by rw [hdp]; exact head_sample_range _ _ _,
      Or.inr ⟨K, hKspec.1, hsafe, hKspec.2, hdp, ?_, ?_, ?_, ?_, ?_⟩⟩
    · rw [hri, hrun]
      simp
    · rw [hri, hrun]
      simp
    · rw [hri, hrun]
      simp
    · rw [hri, hrun]
      simp
    · rw [hri, hrun]
      simp

/-- Witness for C4 amended: the two-sample sweep at `pIterSmall`. -/
theorem run_iterative_spec_witness : IterativeSweepClaim pIterSmall :=
  run_iterative_spec pIterSmall (by decide) (by with_unfolding_all decide)

/-- Every point stored by the linear-sweep loop is a `create_data_point`
output. -/
theorem run_iterative_aux_mem (e : SimulationEngine) (step : ℚ) :
    ∀ fuel i ms acc,
      (∀ x ∈ acc, ∃ c, x = e.create_data_point c) →
      ∀ x ∈ (e.run_iterative_aux step i fuel ms acc).data_points,
        ∃ c, x = e.create_data_point c := by
  intro fuel
  induction fuel with
  | zero =>
      intro i ms acc hacc x hx
      rw [SimulationEngine.run_iterative_aux] at hx
      exact hacc x (List.mem_reverse.mp hx)
  | succ n ih =>
      intro i ms acc hacc x hx
      rw [SimulationEngine.run_iterative_aux] at hx
      by_cases hs : (e.create_data_point ((i : ℚ) * step)).check_result.is_safe
          = true
      · rw [if_pos hs] at hx
        refine ih (i + 1) _ _ ?_ x hx
        intro y hy
        rcases List.mem_cons.mp hy with hy1 | hy2
        · exact ⟨(i : ℚ) * step, hy1⟩
        · exact hacc y hy2
      · rw [if_neg hs] at hx
        dsimp only at hx
        rcases List.mem_cons.mp (List.mem_reverse.mp hx) with hy1 | hy2
        · exact ⟨(i : ℚ) * step, hy1⟩
        · exact hacc x hy2

/-- Every point stored by the binary-search loop is a
`create_data_point` output. -/
theorem run_binary_search_aux_mem (e : SimulationEngine) :
    ∀ fuel low high ms acc,
      (∀ x ∈ acc, ∃ c, x = e.create_data_point c) →
      ∀ x ∈ (e.run_binary_search_aux fuel low high ms acc).2,
        ∃ c, x = e.create_data_point c := by
  intro fuel
  induction fuel with
  | zero =>
      intro low high ms acc hacc x hx
      rw [SimulationEngine.run_binary_search_aux] at hx
      exact hacc x hx
  | succ n ih =>
      intro low high ms acc hacc x hx
      rw [SimulationEngine.run_binary_search_aux] at hx
      dsimp only at hx
      have hext : ∀ y ∈ acc ++ [e.create_data_point ((low + high) / 2)],
          ∃ c, y = e.create_data_point c := by
        intro y hy
        rcases List.mem_append.mp hy with hy1 | hy2
        · exact hacc y hy1
        · exact ⟨(low + high) / 2, by simpa using hy2⟩
      by_cases h1 : high - low < 1 / 100
      · rw [if_pos h1] at hx
        exact hacc x hx
      · rw [if_neg h1] at hx
        by_cases h2 : (low + high) / 2 ≤ 0
        · rw [if_pos h2] at hx
          exact hacc x hx
        · rw [if_neg h2] at hx
          by_cases h3 : (e.create_data_point ((low + high) / 2)).check_result.is_safe
              = true
          · rw [if_pos h3] at hx
            exact ih _ _ _ _ hext x hx
          · rw [if_neg h3] at hx
            exact ih _ _ _ _ hext x hx

/-- C10.  Every data point produced by either strategy mirrors its
embedded evaluation outcome: the top-level chart fields equal the
corresponding `check_result` fields. -/
theorem data_point_mirror (p : SimulationParams) (dp : DataPoint)
    (h : dp ∈ (SimulationEngine.new p).run.data_points) :
    dp.temperature = dp.check_result.final_temperature ∧
    dp.power_loss = dp.check_result.power_dissipation.total ∧
    dp.conduction_loss = dp.check_result.power_dissipation.conduction ∧
    dp.switching_loss = dp.check_result.power_dissipation.switching := by
  have hex : ∃ c, dp = (SimulationEngine.new p).create_data_point c := by
    rw [SimulationEngine.run] at h
    rcases halg : (SimulationEngine.new p).params.simulation_algorithm
    · rw [halg] at h
      exact run_iterative_aux_mem _ _ _ _ _ [] (by simp) dp h
    · rw [halg] at h
      have hmem : dp ∈ ((SimulationEngine.new p).run_binary_search_aux
          (maxIterations ((SimulationEngine.new p).params.max_current * (3 / 2) - 0))
          0 ((SimulationEngine.new p).params.max_current * (3 / 2)) 0 []).2 := by
        have := h
        rw [SimulationEngine.run_binary_search] at this
        dsimp only at this
        exact (List.mem_insertionSort _).mp this
      exact run_binary_search_aux_mem _ _ _ _ _ [] (by simp) dp hmem
  obtain ⟨c, rfl⟩ := hex
  exact ⟨rfl, rfl, rfl, rfl⟩

/-- Witness for C10: the 0 A point of a concrete sweep mirrors its
evaluation outcome. -/
theorem data_point_mirror_witness :
    ((SimulationEngine.new pIterSmall).create_data_point 0) ∈
      (SimulationEngine.new pIterSmall).run.data_points ∧
    ((SimulationEngine.new pIterSmall).create_data_point 0).temperature =
      ((SimulationEngine.new pIterSmall).create_data_point 0).check_result.final_temperature ∧
    ((SimulationEngine.new pIterSmall).create_data_point 0).power_loss =
      ((SimulationEngine.new pIterSmall).create_data_point 0).check_result.power_dissipation.total ∧
    ((SimulationEngine.new pIterSmall).create_data_point 0).conduction_loss =
      ((SimulationEngine.new pIterSmall).create_data_point 0).check_result.power_dissipation.conduction ∧
    ((SimulationEngine.new pIterSmall).create_data_point 0).switching_loss =
      ((SimulationEngine.new pIterSmall).create_data_point 0).check_result.power_dissipation.switching := by
  have hmem : ((SimulationEngine.new pIterSmall).create_data_point 0) ∈
      (SimulationEngine.new pIterSmall).run.data_points := by
    with_unfolding_all decide
  exact ⟨hmem, data_point_mirror pIterSmall _ hmem⟩

end Ampere
